import Mathlib

/-!
Verification of the browser text-to-speech demo application.

This file shallowly embeds the program's core logic in Lean 4:

* `estimateDuration` / `wordCount` — the duration estimator of
  `src/lib/audio-utils.ts` (`estimateDuration`), including the exact
  semantics of JavaScript's `text.split(/\s+/)` (which produces empty
  tokens at the ends of the string).
* `ManagerState`, `speakFull`, `pauseM`, `resumeM`, `stopM`, `onStart`,
  `onEnd`, `onError`, `getState` — the `TextToSpeechManager` playback
  state machine, with the commands it issues to the browser synthesis
  engine modelled explicitly (`EngCmd`).
* `progressValue` — the progress computation of the `AudioPlayer`
  component.
* `recordingStopTime` — the stop-time bound of
  `createAudioBlobWithRecording` (speech-end timer, speech-error timer
  and the unconditional safety timer).
* `createTextFile` — the plain-text export payload.
* `POST` — the input validation of the stub `/api/text-to-speech`
  endpoint.

Machine numbers of the source (JavaScript doubles) are modelled as
rationals; strings are modelled as Lean strings (code points rather
than UTF-16 units, which is immaterial for the properties proved here).
-/

set_option maxRecDepth 8192

namespace TtsApp

/- ### String infrastructure (substring search used by the theorems) -/

/-- `listPre sub l` holds when `sub` is a prefix of `l` (as character lists). -/
def listPre : List Char → List Char → Bool
  | [], _ => true
  | _ :: _, [] => false
  | a :: s, b :: t => a == b && listPre s t

/-- `listContains sub l` holds when `sub` occurs contiguously inside `l`. -/
def listContains : List Char → List Char → Bool
  | sub, [] => listPre sub []
  | sub, c :: t => listPre sub (c :: t) || listContains sub t

/-- `strContains s sub` models JavaScript's `s.includes(sub)`. -/
def strContains (s sub : String) : Bool :=
  listContains sub.data s.data

/- ### Duration estimator (`estimateDuration`, audio-utils lines 438-443) -/

/-- The whitespace class of the regular expression `/\s+/` (restricted to the
common ASCII whitespace characters). -/
def jsWhitespace (c : Char) : Bool :=
  c == ' ' || c == '\t' || c == '\n' || c == '\r' || c == '\x0b' || c == '\x0c'

/-- Fuel-indexed worker for `splitWs`; the fuel (initially the length of the
list) only serves to make the recursion structural. -/
def splitWsF : Nat → List Char → List (List Char)
  | 0, _ => [[]]
  | _ + 1, [] => [[]]
  | n + 1, c :: rest =>
    if jsWhitespace c then
      [] :: splitWsF n (rest.dropWhile jsWhitespace)
    else
      match splitWsF n rest with
      | [] => [[c]]
      | w :: ws => (c :: w) :: ws

/-- JavaScript's `text.split(/\s+/)`: splits at maximal whitespace runs and
keeps the empty tokens arising at the ends (`"".split` is `[""]`,
`" ".split` is `["", ""]`). -/
def splitWs (l : List Char) : List (List Char) :=
  splitWsF l.length l

/-- `text.split(/\s+/).length` from `estimateDuration`. -/
def wordCount (text : String) : Nat :=
  (splitWs text.data).length

/-- `estimateDuration(text, rate)` from audio-utils:
`wordsPerMinute = 155 * rate; return (wordCount / wordsPerMinute) * 60`. -/
def estimateDuration (text : String) (rate : ℚ) : ℚ :=
  (wordCount text : ℚ) / (155 * rate) * 60

/- ### The playback manager (`TextToSpeechManager`) -/

/-- The mutable fields of `TextToSpeechManager`; utterances are identified by
numeric ids (`utterance` is `this.utterance`, `none` standing for `null`). -/
structure ManagerState where
  isPlaying : Bool
  isPaused : Bool
  utterance : Option Nat

/-- Initial state: `isPlaying = false`, `isPaused = false`, `utterance = null`. -/
def initState : ManagerState :=
  ⟨false, false, none⟩

/-- Commands the manager issues to the browser synthesis engine:
`synth.cancel()` and `synth.speak(u)`. -/
inductive EngCmd where
  | cancel
  | enqueue (id : Nat)

/-- Effect of one engine command on the engine's utterance queue:
`cancel` empties the queue, `speak` appends. -/
def applyCmd (q : List Nat) : EngCmd → List Nat
  | .cancel => []
  | .enqueue id => q ++ [id]

/-- Effect of a command sequence on the engine queue. -/
def applyCmds (q : List Nat) (cs : List EngCmd) : List Nat :=
  cs.foldl applyCmd q

/-- `speak(options)` (audio-utils lines 120-147): if `isPlaying` then
`this.stop()` first (cancelling the engine), then store the new utterance and
issue `synth.speak`.  Returns the new state together with the engine commands
issued, in order. -/
def speakFull (s : ManagerState) (id : Nat) : ManagerState × List EngCmd :=
  if s.isPlaying then
    (⟨false, false, some id⟩, [EngCmd.cancel, EngCmd.enqueue id])
  else
    (⟨s.isPlaying, s.isPaused, some id⟩, [EngCmd.enqueue id])

/-- `pause()` (lines 150-155): only acts when `isPlaying && !isPaused`. -/
def pauseM (s : ManagerState) : ManagerState :=
  if s.isPlaying && !s.isPaused then
    ⟨s.isPlaying, true, s.utterance⟩
  else
    s

/-- `resume()` (lines 158-163): only acts when `isPaused`. -/
def resumeM (s : ManagerState) : ManagerState :=
  if s.isPaused then
    ⟨s.isPlaying, false, s.utterance⟩
  else
    s

/-- `stop()` (lines 166-170): `synth.cancel()`, then both flags false. -/
def stopM (s : ManagerState) : ManagerState :=
  ⟨false, false, s.utterance⟩

/-- The `utterance.onstart` handler (lines 128-131). -/
def onStart (s : ManagerState) : ManagerState :=
  ⟨true, false, s.utterance⟩

/-- The `utterance.onend` handler (lines 133-137). -/
def onEnd (s : ManagerState) : ManagerState :=
  ⟨false, false, s.utterance⟩

/-- The `utterance.onerror` handler (lines 139-143). -/
def onError (s : ManagerState) : ManagerState :=
  ⟨false, false, s.utterance⟩

/-- The record returned by `getState()` (lines 173-179). -/
structure StateView where
  isPlaying : Bool
  isPaused : Bool
  isIdle : Bool

/-- `getState()`: `isIdle = !isPlaying && !isPaused`. -/
def getState (s : ManagerState) : StateView :=
  ⟨s.isPlaying, s.isPaused, !s.isPlaying && !s.isPaused⟩

/-- User pause/resume toggle commands (for claim C4). -/
inductive UserCmd where
  | pauseCmd
  | resumeCmd

/-- Apply a user toggle to the manager. -/
def applyUser (s : ManagerState) : UserCmd → ManagerState
  | .pauseCmd => pauseM s
  | .resumeCmd => resumeM s

/-- Every event that mutates the manager state: the four public methods and
the three engine callbacks. -/
inductive Event where
  | speakEv (id : Nat)
  | pauseEv
  | resumeEv
  | stopEv
  | startEv
  | endEv
  | errorEv

/-- One step of the manager under an event. -/
def stepEv (s : ManagerState) : Event → ManagerState
  | .speakEv id => (speakFull s id).1
  | .pauseEv => pauseM s
  | .resumeEv => resumeM s
  | .stopEv => stopM s
  | .startEv => onStart s
  | .endEv => onEnd s
  | .errorEv => onError s

/-- Boolean form of the invariant `isPaused → isPlaying`. -/
def invFlag (s : ManagerState) : Bool :=
  !s.isPaused || s.isPlaying

/- ### Progress computation (`AudioPlayer`, VoiceSettings.tsx lines 215-234) -/

/-- The displayed progress:
`progressPercentage = duration > 0 ? (newTime / duration) * 100 : 0;`
`setProgress(Math.min(progressPercentage, 100))`. -/
def progressValue (elapsed duration : ℚ) : ℚ :=
  min (if 0 < duration then elapsed / duration * 100 else 0) 100

/- ### Recording termination (`createAudioBlobWithRecording`, lines 269-352) -/

/-- The time at which the recorder is stopped, as a function of the (optional)
delivery times of the utterance's `onend` and `onerror` events.  The code
schedules three stop requests: `onend` at `endAt` stops one second later
(lines 323-330), `onerror` stops immediately (lines 332-336), and the safety
timer stops unconditionally at `estimateDuration(text, rate) + 10` seconds
(lines 341-346).  The recorder stops at the earliest of the requests that are
actually issued, because every later request sees the recorder no longer in
the `recording` state. -/
def recordingStopTime (text : String) (rate : ℚ)
    (endAt errAt : Option ℚ) : ℚ :=
  match endAt, errAt with
  | none, none => estimateDuration text rate + 10
  | some te, none => min (te + 1) (estimateDuration text rate + 10)
  | none, some tr => min tr (estimateDuration text rate + 10)
  | some te, some tr => min (te + 1) (min tr (estimateDuration text rate + 10))

/- ### The text-file export (`createTextFile`, lines 240-266) -/

/-- A voice descriptor (`SpeechSynthesisVoice`): name and language. -/
structure VoiceRef where
  name : String
  lang : String

/-- The `VoiceSettings` record of audio-utils (`voice: null` is `none`). -/
structure VoiceSettings where
  rate : ℚ
  pitch : ℚ
  volume : ℚ
  voice : Option VoiceRef

/-- Fuel-indexed decimal-digit printer for the fractional part of a rational
(used by `jsNumToString`); stops when the remainder is zero. -/
def decDigits : Nat → ℚ → String
  | 0, _ => ""
  | n + 1, q =>
    if q = 0 then ""
    else
      Nat.repr ⌊q * 10⌋.toNat ++ decDigits n (q * 10 - (⌊q * 10⌋ : ℚ))

/-- JavaScript's default number-to-string conversion as used by template
literals: an integer prints with no decimal point (`1` prints as "1", never
"1.0"), a fractional value prints integer part, dot and fractional digits. -/
def jsNumToString (q : ℚ) : String :=
  if q - (⌊q⌋ : ℚ) = 0 then
    (if q < 0 then "-" else "") ++ Nat.repr ⌊q⌋.natAbs
  else
    (if q < 0 then "-" else "") ++ Nat.repr ⌊|q|⌋.toNat ++ "." ++
      decDigits 20 (|q| - (⌊|q|⌋ : ℚ))

/-- `settings.voice?.name || 'Default'` (an empty name is falsy). -/
def voiceNameStr (s : VoiceSettings) : String :=
  match s.voice with
  | none => "Default"
  | some v => if v.name == "" then "Default" else v.name

/-- `settings.voice?.lang || 'Default'`. -/
def voiceLangStr (s : VoiceSettings) : String :=
  match s.voice with
  | none => "Default"
  | some v => if v.lang == "" then "Default" else v.lang

/-- The payload of `createTextFile(text, settings)` (lines 240-266).  The
template literal is rendered as a concatenation of its literal segments and
interpolated values; `generatedAt` stands for the ambient
`new Date().toLocaleString()`. -/
def createTextFile (text : String) (settings : VoiceSettings)
    (generatedAt : String) : String :=
  "TEXT-TO-SPEECH CONTENT\n========================\n\nOriginal Text:\n" ++
  (text ++
  ("\n\nVoice Settings:\n" ++
  ("- Rate: " ++
  (jsNumToString settings.rate ++
  ("x" ++
  ("\n" ++
  ("- Pitch: " ++
  (jsNumToString settings.pitch ++
  ("\n" ++
  ("- Volume: " ++
  (jsNumToString settings.volume ++
  ("\n" ++
  ("- Voice: " ++
  (voiceNameStr settings ++
  ("\n- Language: " ++
  (voiceLangStr settings ++
  ("\n\nGenerated: " ++
  (generatedAt ++
  "\n\nNOTE: Due to browser security limitations, the actual speech audio cannot be directly \ncaptured to a file. Use the \"Play\" button in the application to hear the speech.\n\nFor recording actual speech audio, you would need:\n1. External screen/audio recording software\n2. Server-side TTS services (Google Cloud TTS, Amazon Polly, etc.)\n3. Browser extensions with special permissions\n"))))))))))))))))))

/-- Spec-side rendering "formatted to one decimal place" (`toFixed(1)`),
stated only to compare the specification's claim with `createTextFile`. -/
def specToFixed1 (q : ℚ) : String :=
  Nat.repr (⌊q * 10 + 1 / 2⌋.toNat / 10) ++ "." ++
    Nat.repr (⌊q * 10 + 1 / 2⌋.toNat % 10)

/-- Spec-side rendering "volume formatted as a percentage", stated only to
compare the specification's claim with `createTextFile`. -/
def specPercent (q : ℚ) : String :=
  Nat.repr ⌊q * 100 + 1 / 2⌋.toNat ++ "%"

/-- The payload shape asserted by claim C2: non-empty, contains the literal
text, and contains rate and pitch rendered to one decimal place and volume
rendered as a percentage. -/
def c2Claimed (text : String) (s : VoiceSettings) (payload : String) : Prop :=
  payload ≠ "" ∧
  strContains payload text = true ∧
  strContains payload (specToFixed1 s.rate) = true ∧
  strContains payload (specToFixed1 s.pitch) = true ∧
  strContains payload (specPercent s.volume) = true

/- ### The stub endpoint (`src/app/api/text-to-speech/route.ts`) -/

/-- A JSON value as far as the endpoint's validation observes it. -/
inductive JsValue where
  | jstr (s : String)
  | jnum (q : ℚ)
  | jbool (b : Bool)
  | jnull
  | jundefined

/-- JavaScript truthiness test `!text` (negated): `undefined`, `null`, `""`,
`0` and `false` are falsy. -/
def jsFalsy : JsValue → Bool
  | .jstr s => s == ""
  | .jnum q => decide (q = 0)
  | .jbool b => !b
  | .jnull => true
  | .jundefined => true

/-- `typeof text === 'string'`. -/
def isJsString : JsValue → Bool
  | .jstr _ => true
  | _ => false

/-- The underlying string of a string value (defaults to `""`; only consulted
under the `isJsString` guard, mirroring `||` short-circuiting). -/
def asString : JsValue → String
  | .jstr s => s
  | _ => ""

/-- JavaScript's `String.prototype.trim()` on the modelled whitespace class. -/
def jsTrim (s : String) : String :=
  ⟨((s.data.dropWhile jsWhitespace).reverse.dropWhile jsWhitespace).reverse⟩

/-- The part of the endpoint's response the validation claims observe. -/
structure ApiResponse where
  status : Nat
  error : String

/-- The validation of `POST` (route.ts lines 3-44): first
`!text || typeof text !== 'string' || text.trim().length === 0`, then
`text.length > 5000`, otherwise the 501 placeholder response. -/
def POST (text : JsValue) : ApiResponse :=
  if jsFalsy text || !isJsString text || (jsTrim (asString text)).length == 0 then
    ⟨400, "Text is required and must be a non-empty string"⟩
  else if 5000 < (asString text).length then
    ⟨400, "Text must be less than 5000 characters"⟩
  else
    ⟨501, "Server-side TTS requires external service integration"⟩

/-- A 5001-character text, used to exercise the length check. -/
def longText : String :=
  ⟨List.replicate 5001 'a'⟩

/-! ## Helper lemmas -/

theorem str_ext {a b : String} (h : a.data = b.data) : a = b := by
  cases a
  cases b
  exact congrArg String.mk h

theorem str_data_append (a b : String) : (a ++ b).data = a.data ++ b.data := by
  cases a
  cases b
  rfl

theorem str_append_assoc (a b c : String) : (a ++ b) ++ c = a ++ (b ++ c) :=
  str_ext (by simp [str_data_append])

theorem listPre_self_append (b c : List Char) : listPre b (b ++ c) = true := by
  induction b with
  | nil => rfl
  | cons a s ih => simp [listPre, ih]

theorem listContains_here (sub l : List Char) (h : listPre sub l = true) :
    listContains sub l = true := by
  cases l with
  | nil => simpa [listContains] using h
  | cons c t => simp [listContains, h]

theorem listContains_cons (sub : List Char) (c : Char) (t : List Char)
    (h : listContains sub t = true) : listContains sub (c :: t) = true := by
  simp [listContains, h]

theorem listContains_append_right (sub a l : List Char)
    (h : listContains sub l = true) : listContains sub (a ++ l) = true := by
  induction a with
  | nil => simpa using h
  | cons c t ih => exact listContains_cons _ _ _ ih

theorem strContains_self_append (sub b : String) :
    strContains (sub ++ b) sub = true := by
  unfold strContains
  rw [str_data_append]
  exact listContains_here _ _ (listPre_self_append _ _)

theorem strContains_append_right (a s sub : String)
    (h : strContains s sub = true) : strContains (a ++ s) sub = true := by
  unfold strContains at h ⊢
  rw [str_data_append]
  exact listContains_append_right _ _ _ h

theorem strContains_head2 (x y r : String) :
    strContains (x ++ (y ++ r)) (x ++ y) = true := by
  have h : x ++ (y ++ r) = (x ++ y) ++ r := by
    simp [str_append_assoc]
  rw [h]
  exact strContains_self_append _ _

theorem strContains_head3 (x y z r : String) :
    strContains (x ++ (y ++ (z ++ r))) (x ++ (y ++ z)) = true := by
  have h : x ++ (y ++ (z ++ r)) = (x ++ (y ++ z)) ++ r := by
    simp [str_append_assoc]
  rw [h]
  exact strContains_self_append _ _

theorem str_len_zero {s : String} (h : s.length = 0) : s = "" :=
  str_ext (by
    have h2 : s.data = [] := List.length_eq_zero.mp h
    rw [h2])

theorem jsNum_one : jsNumToString 1 = "1" := by
  have h1 : ⌊(1 : ℚ)⌋ = 1 := Int.floor_one
  have h2 : ¬((1 : ℚ) < 0) := by norm_num
  simp [jsNumToString, h1, h2]
  decide

theorem spec_fixed1_one : specToFixed1 1 = "1.0" := by
  have h0 : ⌊(2⁻¹ : ℚ)⌋ = 0 := by
    apply Int.floor_eq_iff.mpr
    norm_num
  simp [specToFixed1, h0]
  decide

theorem voiceName_none : voiceNameStr ⟨1, 1, 1, none⟩ = "Default" := rfl

theorem voiceLang_none : voiceLangStr ⟨1, 1, 1, none⟩ = "Default" := rfl

theorem dropWhile_eq_self_of (p : Char → Bool) (l : List Char)
    (h : ∀ c ∈ l, p c = false) : List.dropWhile p l = l := by
  cases l with
  | nil => rfl
  | cons c t =>
    rw [List.dropWhile_cons, h c (by simp), if_neg (by decide)]

theorem jsTrim_eq_self {s : String} (h : ∀ c ∈ s.data, jsWhitespace c = false) :
    jsTrim s = s := by
  apply str_ext
  show ((s.data.dropWhile jsWhitespace).reverse.dropWhile
      jsWhitespace).reverse = s.data
  rw [dropWhile_eq_self_of _ _ h]
  rw [dropWhile_eq_self_of _ _ ?h2]
  · rw [List.reverse_reverse]
  · intro c hc
    exact h c (List.mem_reverse.mp hc)

theorem longText_all_a : ∀ c ∈ longText.data, jsWhitespace c = false := by
  intro c hc
  have h2 : c = 'a' := List.eq_of_mem_replicate hc
  rw [h2]
  decide

theorem longText_length : longText.length = 5001 := by
  show (List.replicate 5001 'a').length = 5001
  rw [List.length_replicate]

theorem longText_ne : longText ≠ "" := by
  intro h
  have h2 : longText.length = 0 := by rw [h]; rfl
  rw [longText_length] at h2
  exact absurd h2 (by norm_num)

theorem longText_trim_ne : jsTrim longText ≠ "" := by
  rw [jsTrim_eq_self longText_all_a]
  exact longText_ne

theorem invFlag_step (s : ManagerState) (e : Event) (h : invFlag s = true) :
    invFlag (stepEv s e) = true := by
  cases e <;>
    simp only [stepEv, speakFull, pauseM, resumeM, stopM, onStart, onEnd,
      onError] <;>
    first
    | (split <;> simp_all [invFlag])
    | simp_all [invFlag]

theorem invFlag_foldl (evs : List Event) (s : ManagerState)
    (h : invFlag s = true) : invFlag (evs.foldl stepEv s) = true := by
  induction evs generalizing s with
  | nil => exact h
  | cons e t ih => exact ih (stepEv s e) (invFlag_step s e h)

/-! ## The claims -/

/-- C1: the claim states that for whitespace-only texts (including the empty
string) and any rate r > 0 the duration estimate is 0.  The code disagrees:
`"".split(/\s+/)` is `[""]` (one empty token) and `" ".split(/\s+/)` is
`["", ""]`, so `estimateDuration("", 1) = (1/155)*60 = 12/31 ≈ 0.387 s` and
`estimateDuration(" ", 1) = 24/31 ≈ 0.774 s`, both nonzero.  This theorem
evaluates the embedded code at those failing inputs. -/
theorem estimateDuration_whitespace_nonzero :
    estimateDuration "" 1 = 12 / 31 ∧ estimateDuration " " 1 = 24 / 31 ∧
    estimateDuration "" 1 ≠ 0 := by
  refine ⟨?_, ?_, ?_⟩
  · unfold estimateDuration
    rw [show wordCount "" = 1 from rfl]
    norm_num
  · unfold estimateDuration
    rw [show wordCount " " = 2 from rfl]
    norm_num
  · unfold estimateDuration
    rw [show wordCount "" = 1 from rfl]
    norm_num

/-- C2 (counterexample): at text "Hello world" and settings
rate = pitch = volume = 1 with no voice, the payload of `createTextFile` does
not contain the one-decimal rendering "1.0" of the rate (it renders the rate
as "1x"), so the claimed formatting ("rate and pitch to one decimal place,
volume as a percentage") fails. -/
theorem createTextFile_not_spec_formatted :
    ¬ c2Claimed "Hello world" ⟨1, 1, 1, none⟩
      (createTextFile "Hello world" ⟨1, 1, 1, none⟩ "2024-06-01 12:00:00") := by
  intro h
  have h1 : strContains
      (createTextFile "Hello world" ⟨1, 1, 1, none⟩ "2024-06-01 12:00:00")
      (specToFixed1 1) = true := h.2.2.1
  rw [spec_fixed1_one] at h1
  simp only [createTextFile, jsNum_one, voiceName_none, voiceLang_none] at h1
  revert h1
  decide

/-- C2 (amended): for every text, settings record and generation timestamp,
`createTextFile` returns a non-empty payload that contains the literal input
text and the numeric settings rendered with JavaScript's default number
formatting ("- Rate: <n>x", "- Pitch: <n>", "- Volume: <n>"), with no
one-decimal or percentage formatting. -/
theorem createTextFile_contains_text_and_settings
    (text : String) (s : VoiceSettings) (generatedAt : String) :
    createTextFile text s generatedAt ≠ "" ∧
    strContains (createTextFile text s generatedAt) text = true ∧
    strContains (createTextFile text s generatedAt)
      ("- Rate: " ++ (jsNumToString s.rate ++ "x")) = true ∧
    strContains (createTextFile text s generatedAt)
      ("- Pitch: " ++ jsNumToString s.pitch) = true ∧
    strContains (createTextFile text s generatedAt)
      ("- Volume: " ++ jsNumToString s.volume) = true := by
  refine ⟨?_, ?_, ?_, ?_, ?_⟩
  · intro hempty
    have hc : strContains (createTextFile text s generatedAt)
        "TEXT-TO-SPEECH CONTENT\n========================\n\nOriginal Text:\n" =
        true := by
      unfold createTextFile
      exact strContains_self_append _ _
    rw [hempty] at hc
    revert hc
    decide
  · unfold createTextFile
    apply strContains_append_right
    exact strContains_self_append _ _
  · unfold createTextFile
    apply strContains_append_right
    apply strContains_append_right
    apply strContains_append_right
    exact strContains_head3 _ _ _ _
  · unfold createTextFile
    apply strContains_append_right
    apply strContains_append_right
    apply strContains_append_right
    apply strContains_append_right
    apply strContains_append_right
    apply strContains_append_right
    apply strContains_append_right
    exact strContains_head2 _ _ _
  · unfold createTextFile
    apply strContains_append_right
    apply strContains_append_right
    apply strContains_append_right
    apply strContains_append_right
    apply strContains_append_right
    apply strContains_append_right
    apply strContains_append_right
    apply strContains_append_right
    apply strContains_append_right
    apply strContains_append_right
    exact strContains_head2 _ _ _

/-- C3: when `speak` is invoked while `isPlaying` is true, the manager issues
exactly `cancel` followed by `speak(new utterance)` to the engine, and the
engine queue afterwards contains exactly the new utterance, whatever it held
before — so at most one utterance remains active and only the latest session
can receive a completion event. -/
theorem speak_cancels_active (s : ManagerState) (id : Nat) (q : List Nat)
    (h : s.isPlaying = true) :
    (speakFull s id).2 = [EngCmd.cancel, EngCmd.enqueue id] ∧
    applyCmds q (speakFull s id).2 = [id] := by
  simp [speakFull, h, applyCmds, applyCmd]

/-- C3 (witness): concrete instance with a playing manager and one queued
utterance. -/
theorem speak_cancels_active_witness :
    (speakFull ⟨true, false, some 0⟩ 1).2 = [EngCmd.cancel, EngCmd.enqueue 1] ∧
    applyCmds [0] (speakFull ⟨true, false, some 0⟩ 1).2 = [1] :=
  speak_cancels_active ⟨true, false, some 0⟩ 1 [0] rfl

/-- C4: from any manager state and after any sequence of pause/resume
toggles, `stop()` leaves the manager Idle: `getState()` reports
`isPlaying = false`, `isPaused = false`, `isIdle = true`. -/
theorem stop_returns_idle (s : ManagerState) (toggles : List UserCmd) :
    getState (stopM (toggles.foldl applyUser s)) = ⟨false, false, true⟩ := rfl

/-- C5: the stub endpoint returns 400 "Text is required and must be a
non-empty string" when the text field is missing, not a string, or empty
after trimming; 400 "Text must be less than 5000 characters" when the text is
a string that survives trimming but has length above 5000; and no 400
otherwise. -/
theorem post_validation :
    (∀ v : JsValue,
        (v = JsValue.jundefined ∨ isJsString v = false ∨
          (∃ s, v = JsValue.jstr s ∧ jsTrim s = "")) →
        POST v = ⟨400, "Text is required and must be a non-empty string"⟩) ∧
    (∀ s : String, jsTrim s ≠ "" → 5000 < s.length →
        POST (JsValue.jstr s) = ⟨400, "Text must be less than 5000 characters"⟩) ∧
    (∀ s : String, jsTrim s ≠ "" → s.length ≤ 5000 →
        (POST (JsValue.jstr s)).status ≠ 400) := by
  refine ⟨?_, ?_, ?_⟩
  · intro v hv
    cases v with
    | jstr s =>
      rcases hv with h | h | ⟨s2, hs2, htrim⟩
      · exact absurd h (by simp)
      · exact absurd h (by simp [isJsString])
      · injection hs2 with h3
        subst h3
        simp [POST, asString, htrim]
    | jnum q => simp [POST, isJsString]
    | jbool b => simp [POST, isJsString]
    | jnull => simp [POST, isJsString]
    | jundefined => simp [POST, isJsString]
  · intro s h1 h2
    have hne : s ≠ "" := fun hh => h1 (by rw [hh]; rfl)
    have hlen : (jsTrim s).length ≠ 0 := fun hh => h1 (str_len_zero hh)
    simp [POST, asString, jsFalsy, isJsString, hne, hlen, h2]
  · intro s h1 h2
    have hne : s ≠ "" := fun hh => h1 (by rw [hh]; rfl)
    have hlen : (jsTrim s).length ≠ 0 := fun hh => h1 (str_len_zero hh)
    have h3 : ¬(5000 < s.length) := by omega
    simp [POST, asString, jsFalsy, isJsString, hne, hlen, h3]

/-- C5 (witness): a whitespace-only text yields the first 400, a
5001-character text yields the length 400, and a short valid text yields no
400. -/
theorem post_validation_witness :
    POST (JsValue.jstr "   ") =
      ⟨400, "Text is required and must be a non-empty string"⟩ ∧
    POST (JsValue.jstr longText) =
      ⟨400, "Text must be less than 5000 characters"⟩ ∧
    (POST (JsValue.jstr "hello")).status ≠ 400 :=
  ⟨post_validation.1 _ (Or.inr (Or.inr ⟨"   ", rfl, by decide⟩)),
   post_validation.2.1 longText longText_trim_ne
     (by rw [longText_length]; norm_num),
   post_validation.2.2 "hello" (by decide) (by decide)⟩

/-- C6: for any nonnegative elapsed time (arbitrarily larger than the
estimated duration) and any duration, the displayed progress lies in
[0, 100], and a zero estimated duration yields progress 0 (the division
branch is never taken). -/
theorem progress_clamped (elapsed duration : ℚ) (h : 0 ≤ elapsed) :
    0 ≤ progressValue elapsed duration ∧ progressValue elapsed duration ≤ 100 ∧
    progressValue elapsed 0 = 0 := by
  refine ⟨?_, min_le_right _ _, ?_⟩
  · unfold progressValue
    apply le_min ?_ (by norm_num)
    split
    · rename_i hd
      exact mul_nonneg (div_nonneg h hd.le) (by norm_num)
    · exact le_refl 0
  · norm_num [progressValue]

/-- C6 (witness): elapsed 200 with estimated duration 1 (elapsed far beyond
the duration) stays within [0, 100], and duration 0 yields progress 0. -/
theorem progress_clamped_witness :
    (0 : ℚ) ≤ 200 ∧
      (0 ≤ progressValue 200 1 ∧ progressValue 200 1 ≤ 100 ∧
        progressValue 200 0 = 0) :=
  ⟨by norm_num, progress_clamped 200 1 (by norm_num)⟩

/-- C7: for a fixed text and rates r2 > r1 > 0, the estimated duration at the
faster rate is at most the estimated duration at the slower rate. -/
theorem estimateDuration_monotone_rate (t : String) (r1 r2 : ℚ)
    (h1 : 0 < r1) (h2 : r1 < r2) :
    estimateDuration t r2 ≤ estimateDuration t r1 := by
  unfold estimateDuration
  gcongr

/-- C7 (witness): doubling the rate from 1 to 2 does not increase the
estimate for "Hello world". -/
theorem estimateDuration_monotone_rate_witness :
    (0 : ℚ) < 1 ∧ (1 : ℚ) < 2 ∧
      estimateDuration "Hello world" 2 ≤ estimateDuration "Hello world" 1 :=
  ⟨by norm_num, by norm_num,
    estimateDuration_monotone_rate "Hello world" 1 2 (by norm_num) (by norm_num)⟩

/-- C8: whatever the delivery times of the engine's completion and error
events — including the case where neither is ever delivered — the recording
of `createAudioBlobWithRecording` is stopped no later than
`estimateDuration(text, rate) + 10` seconds after it starts, thanks to the
unconditional safety timer. -/
theorem recording_stops_by_deadline (text : String) (rate : ℚ)
    (endAt errAt : Option ℚ) :
    recordingStopTime text rate endAt errAt ≤ estimateDuration text rate + 10 := by
  cases endAt with
  | none =>
    cases errAt with
    | none => exact le_refl _
    | some tr => exact min_le_right _ _
  | some te =>
    cases errAt with
    | none => exact min_le_right _ _
    | some tr => exact le_trans (min_le_right _ _) (min_le_right _ _)

/-- C9: for the text "Hello world" at rate 1 the word count is 2 and the
estimated duration is exactly (2/155) × 60 seconds. -/
theorem helloWorld_estimate :
    wordCount "Hello world" = 2 ∧
    estimateDuration "Hello world" 1 = 2 / 155 * 60 := by
  refine ⟨by decide, ?_⟩
  unfold estimateDuration
  rw [show wordCount "Hello world" = 2 from rfl]
  norm_num

/-- C10: every state reachable from the initial manager state through any
sequence of speak/pause/resume/stop calls and onstart/onend/onerror callbacks
satisfies `isPaused → isPlaying` (stated as a Boolean equation), hence
`getState()` always reports exactly one of Idle, Playing, Paused; moreover on
any state at all, `pause()` outside Playing and `resume()` outside Paused
leave the state unchanged. -/
theorem manager_three_states (evs : List Event) (t : ManagerState) :
    ((evs.foldl stepEv initState).isPaused &&
        !(evs.foldl stepEv initState).isPlaying) = false ∧
    (getState (evs.foldl stepEv initState) = ⟨false, false, true⟩ ∨
      getState (evs.foldl stepEv initState) = ⟨true, false, false⟩ ∨
      getState (evs.foldl stepEv initState) = ⟨true, true, false⟩) ∧
    ((t.isPlaying = true ∧ t.isPaused = false) ∨ pauseM t = t) ∧
    (t.isPaused = true ∨ resumeM t = t) := by
  have hinv : invFlag (evs.foldl stepEv initState) = true :=
    invFlag_foldl evs initState rfl
  refine ⟨?_, ?_, ?_, ?_⟩
  · cases hp : (evs.foldl stepEv initState).isPlaying <;>
      cases hq : (evs.foldl stepEv initState).isPaused <;>
      simp_all [invFlag]
  · cases hp : (evs.foldl stepEv initState).isPlaying <;>
      cases hq : (evs.foldl stepEv initState).isPaused <;>
      simp_all [invFlag, getState]
  · rcases t with ⟨p, q, u⟩
    cases p <;> cases q <;> simp [pauseM]
  · rcases t with ⟨p, q, u⟩
    cases q <;> simp [resumeM]

end TtsApp
